import Mathlib

/-!
Verification of the request-instrumentation pipeline of `app/app.py`
(a Flask service with Prometheus metrics, OpenTelemetry spans and
logfmt-style structured logs).

The Python source is shallowly embedded below:

* `logfmt` mirrors `app.py` lines 26-32 (the `for` loop is the fold
  over the ordered field list; `str.replace(" ", "_")` on a one-character
  pattern is the character map `replaceSpaces`).
* `Registry` holds the two process-wide metrics: the counter
  `app_requests_total{path, method, status}` (field `requests`) and the
  histogram `app_request_latency_seconds{path, method}` (field
  `latency`).  Children are association-list entries created on first
  use of a label combination, in insertion order, exactly as
  `prometheus_client` keeps them.
* `runInstrumented` is the instrumentation pattern shared verbatim by
  the handlers `index` (lines 72-97) and `hello` (lines 99-121):
  record the start time, open a span (a Python `with` block, so the
  span is closed on every exit path), run the handler body, then - only
  when the body did not raise - increment the counter, observe the
  latency and emit one log line.  The body's outcome is an `Except`
  value so that the failure path of the `with` statement (span closed,
  exception re-raised, nothing after the block executes) is expressible;
  the two concrete handlers instantiate it with bodies that always
  succeed.
* `health` (lines 68-70) and `metrics` (lines 123-125) are the
  uninstrumented routes.
* `generate_latest` renders the Prometheus text exposition of the
  registry (library code of `prometheus_client`; modelled as the
  deterministic snapshot of the registry state that the spec's
  `export()` contract describes).  The `_created` gauge series and the
  exact float formatting of histogram sums are abstracted: they are
  constant per state and no claim depends on them.

Wall-clock reads (`time.time()`) are modelled by rational elapsed
times supplied with each request event: `d1` is the elapsed time at the
`observe` call and `d2` the (slightly later) elapsed time used for the
logged `duration_ms`.  Real time and Python floats are otherwise out of
scope; rationals stand in for the float arithmetic.
-/

namespace ObsApp

/-- A Python value appearing as a `logfmt` field: a string, a
nonnegative integer (`str(int)` prints its digits), or a float with one
decimal digit as produced by `round(x, 1)`, carried as tenths. -/
inductive Val where
  | vs (s : String)
  | vn (n : Nat)
  | vq (tenths : Int)
deriving DecidableEq

/-- Python's `str(v)` for the values the app logs.  `round(x, 1)` of a
nonnegative float prints as `d.t`; negative tenths cannot arise from a
monotone clock and are clamped. -/
def pyStr : Val → String
  | .vs s => s
  | .vn n => toString n
  | .vq t => toString (t.toNat / 10) ++ "." ++ toString (t.toNat % 10)

/-- `str(v).replace(" ", "_")` from `app.py` line 30: a one-character
pattern replace is the map sending each space to an underscore. -/
def replaceSpaces (s : String) : String :=
  ⟨s.data.map (fun c => if c = ' ' then '_' else c)⟩

/-- Python string slicing `s[:n]` (by characters). -/
def strTake (n : Nat) (s : String) : String :=
  ⟨s.data.take n⟩

/-- Python's `sep.join(parts)`. -/
def sepJoin (sep : String) : List String → String
  | [] => ""
  | [x] => x
  | x :: y :: xs => x ++ sep ++ sepJoin sep (y :: xs)

/-- `logfmt` from `app.py` lines 26-32: build `parts` by appending
`f"\x7bk\x7d=\x7bs\x7d"` for each field in caller order, then
`" ".join(parts)`. -/
def logfmt (fields : List (String × Val)) : String :=
  sepJoin " "
    (fields.foldl (fun parts kv => parts ++ [kv.1 ++ "=" ++ replaceSpaces (pyStr kv.2)]) [])

/-- Whether a character is Python whitespace (`str.isspace` over the
ASCII range). -/
def isPyWhitespace (c : Char) : Bool :=
  c = ' ' || c = '\t' || c = '\n' || c = '\x0b' || c = '\x0c' || c = '\r'

/-- The serialization the spec's words describe for §4.3 ("any value
containing whitespace has whitespace replaced with an underscore"):
every whitespace character of a value, not only the space, becomes an
underscore.  Stated only for comparison with `logfmt`. -/
def logfmtSpecWhitespace (fields : List (String × Val)) : String :=
  sepJoin " "
    (fields.map (fun kv =>
      kv.1 ++ "=" ++ ⟨(pyStr kv.2).data.map (fun c => if isPyWhitespace c then '_' else c)⟩))

/-- One histogram child of `app_request_latency_seconds`: cumulative
bucket counts (each bucket carries its `le` label text and rational
upper bound), plus sum and count. -/
structure Hist where
  count : Nat
  sum : ℚ
  buckets : List ((String × ℚ) × Nat)
deriving DecidableEq

/-- The default `prometheus_client` bucket upper bounds with their
rendered `le` labels (the final `+Inf` bucket is the total count). -/
def defaultBuckets : List (String × ℚ) :=
  [("0.005", 5/1000), ("0.01", 1/100), ("0.025", 1/40), ("0.05", 1/20),
   ("0.075", 3/40), ("0.1", 1/10), ("0.25", 1/4), ("0.5", 1/2),
   ("0.75", 3/4), ("1.0", 1), ("2.5", 5/2), ("5.0", 5), ("7.5", 15/2),
   ("10.0", 10)]

/-- A freshly created histogram child. -/
def Hist.empty : Hist :=
  ⟨0, 0, defaultBuckets.map (fun b => (b, 0))⟩

/-- `Histogram.observe(v)`: bump every bucket whose bound covers `v`,
add `v` to the sum, add one to the count. -/
def Hist.observe (d : ℚ) (h : Hist) : Hist :=
  ⟨h.count + 1, h.sum + d,
   h.buckets.map (fun bc => (bc.1, if d ≤ bc.1.2 then bc.2 + 1 else bc.2))⟩

/-- `Counter.labels(...).inc()`: find the child for this label-value
combination and add one, creating it (at the end, insertion order) on
first use. -/
def bump {α : Type} [DecidableEq α] (k : α) : List (α × Nat) → List (α × Nat)
  | [] => [(k, 1)]
  | (k', v) :: rest => if k' = k then (k', v + 1) :: rest else (k', v) :: bump k rest

/-- `Histogram.labels(...).observe(d)`: find or create the child and
record the observation. -/
def obsH (k : String × String) (d : ℚ) :
    List ((String × String) × Hist) → List ((String × String) × Hist)
  | [] => [(k, Hist.observe d Hist.empty)]
  | (k', h) :: rest =>
    if k' = k then (k', Hist.observe d h) :: rest else (k', h) :: obsH k d rest

/-- The process-wide metrics state: the children of `REQUESTS`
(`app_requests_total`, labels `path`, `method`, `status`) and of
`REQ_LATENCY` (`app_request_latency_seconds`, labels `path`,
`method`), in creation order. -/
structure Registry where
  requests : List ((String × String × String) × Nat)
  latency : List ((String × String) × Hist)
deriving DecidableEq

/-- The registry at process start: both metrics registered, no children. -/
def emptyRegistry : Registry := ⟨[], []⟩

/-- Value of one counter child (0 when the label combination was never
used). -/
def cval (k : String × String × String) :
    List ((String × String × String) × Nat) → Nat
  | [] => 0
  | (k', v) :: rest => if k' = k then v else cval k rest

/-- Sum of `app_requests_total` over all statuses for one
`(path, method)` pair. -/
def ctot (p m : String) : List ((String × String × String) × Nat) → Nat
  | [] => 0
  | (k, v) :: rest => (if k.1 = p ∧ k.2.1 = m then v else 0) + ctot p m rest

/-- Total observation count of the latency histogram for one
`(path, method)` pair. -/
def hcount (k : String × String) : List ((String × String) × Hist) → Nat
  | [] => 0
  | (k', h) :: rest => if k' = k then h.count else hcount k rest

/-- Sum of observed latencies of the histogram for one `(path, method)`
pair. -/
def hsum (k : String × String) : List ((String × String) × Hist) → ℚ
  | [] => 0
  | (k', h) :: rest => if k' = k then h.sum else hsum k rest

/-- The stages of one instrumented invocation, as named by the spec's
request state machine. -/
inductive Step where
  | STARTED | SPAN_OPEN | HANDLER_RUNNING | SPAN_CLOSED
  | METRICS_RECORDED | LOGGED | DONE
deriving DecidableEq

/-- A span as handed to the exporter when it is closed: its name, the
attributes set while it was open, and whether the `with` block exited
through an exception (OpenTelemetry then marks the span status as
error). -/
structure SpanRec where
  name : String
  attrs : List (String × String)
  isError : Bool
deriving DecidableEq

/-- Everything one route invocation produces: the returned
`(body, status)` pair or the propagated exception, the registry
afterwards, the log lines emitted, the spans closed, the instrumentation
stages reached in order, and any extra response headers. -/
structure RunResult where
  outcome : Except String (String × Nat)
  registry : Registry
  logs : List String
  spans : List SpanRec
  steps : List Step
  headers : List (String × String)

/-- The full stage sequence of a successfully completed instrumented
invocation. -/
def fullSteps : List Step :=
  [.STARTED, .SPAN_OPEN, .HANDLER_RUNNING, .SPAN_CLOSED,
   .METRICS_RECORDED, .LOGGED, .DONE]

/-- The instrumentation pattern of `index` and `hello` (`app.py` lines
72-97 and 99-121): `start = time.time()`; a `with
tracer.start_as_current_span(...)` block running the handler body; then
the counter increment, the histogram observation, the `log.info(logfmt
...)` call and the return.  There is no `try`/`except`: when the body
raises, the `with` statement still closes the span (with error status)
but the exception propagates and none of the code after the block runs.
`d1` is the elapsed time `time.time() - start` read at the `observe`
call; the log fields are already closed over the later read `d2`. -/
def runInstrumented (path spanName : String) (attrs : List (String × String))
    (body : Except String (String × Nat)) (fields : Nat → List (String × Val))
    (d1 : ℚ) (r : Registry) : RunResult :=
  match body with
  | .error e =>
    { outcome := .error e
      registry := r
      logs := []
      spans := [⟨spanName, attrs, true⟩]
      steps := [.STARTED, .SPAN_OPEN, .HANDLER_RUNNING, .SPAN_CLOSED]
      headers := [] }
  | .ok (txt, status) =>
    { outcome := .ok (txt, status)
      registry := ⟨bump (path, "GET", toString status) r.requests,
                   obsH (path, "GET") d1 r.latency⟩
      logs := [logfmt (fields status)]
      spans := [⟨spanName, attrs, false⟩]
      steps := fullSteps
      headers := [] }

/-- The log fields of `index` (`app.py` lines 88-96), in source order:
`event`, `path`, `method`, `status`, `duration_ms`, `client_ip`,
`user_agent`, where `user_agent` is
`request.headers.get("User-Agent", "")[:100]`. -/
def indexFields (status : Nat) (d2 : ℚ) (ip : String) (ua : Option String) :
    List (String × Val) :=
  [("event", .vs "request"), ("path", .vs "/"), ("method", .vs "GET"),
   ("status", .vn status), ("duration_ms", .vq (round (d2 * 10000))),
   ("client_ip", .vs ip), ("user_agent", .vs (strTake 100 (ua.getD "")))]

/-- The log fields of `hello` (`app.py` lines 112-120), in source
order: `event`, `path`, `method`, `status`, `name`, `duration_ms`,
`client_ip`. -/
def helloFields (status : Nat) (d2 : ℚ) (ip : String) (name : String) :
    List (String × Val) :=
  [("event", .vs "request"), ("path", .vs "/hello"), ("method", .vs "GET"),
   ("status", .vn status), ("name", .vs name),
   ("duration_ms", .vq (round (d2 * 10000))), ("client_ip", .vs ip)]

/-- `index` (`app.py` lines 72-97): span `index-handler`, body sleeps
then returns `("Hello from sample app!\n", 200)`. -/
def index (ua : Option String) (ip : String) (d1 d2 : ℚ) (r : Registry) : RunResult :=
  runInstrumented "/" "index-handler" [] (.ok ("Hello from sample app!\n", 200))
    (fun st => indexFields st d2 ip ua) d1 r

/-- `hello` (`app.py` lines 99-121): span `hello-handler` with the
`app.user_name` attribute, body returns `("Hello \x7bname\x7d!\n", 200)`. -/
def hello (name ip : String) (d1 d2 : ℚ) (r : Registry) : RunResult :=
  runInstrumented "/hello" "hello-handler" [("app.user_name", name)]
    (.ok ("Hello " ++ name ++ "!\n", 200))
    (fun st => helloFields st d2 ip name) d1 r

/-- `health` (`app.py` lines 68-70): returns `("ok\n", 200)` and runs
no instrumentation at all. -/
def health (r : Registry) : RunResult :=
  { outcome := .ok ("ok\n", 200), registry := r, logs := [], spans := [],
    steps := [], headers := [] }

/-- `prometheus_client.CONTENT_TYPE_LATEST`. -/
def CONTENT_TYPE_LATEST : String := "text/plain; version=0.0.4; charset=utf-8"

/-- Concatenation of exposition lines, each terminated by a newline. -/
def concatLines : List String → String
  | [] => ""
  | l :: ls => l ++ "\n" ++ concatLines ls

/-- The exposition sample line of one `app_requests_total` child. -/
def counterSampleLine (e : (String × String × String) × Nat) : String :=
  "app_requests_total\x7bpath=\"" ++ e.1.1 ++ "\",method=\"" ++ e.1.2.1 ++
    "\",status=\"" ++ e.1.2.2 ++ "\"\x7d " ++ toString e.2 ++ ".0"

/-- The exposition lines of one latency-histogram child: the cumulative
buckets, the `+Inf` bucket, the count and the sum. -/
def histChildLines (e : (String × String) × Hist) : List String :=
  e.2.buckets.map (fun bc =>
    "app_request_latency_seconds_bucket\x7bpath=\"" ++ e.1.1 ++ "\",method=\"" ++
      e.1.2 ++ "\",le=\"" ++ bc.1.1 ++ "\"\x7d " ++ toString bc.2 ++ ".0")
  ++ ["app_request_latency_seconds_bucket\x7bpath=\"" ++ e.1.1 ++ "\",method=\"" ++
        e.1.2 ++ "\",le=\"+Inf\"\x7d " ++ toString e.2.count ++ ".0",
      "app_request_latency_seconds_count\x7bpath=\"" ++ e.1.1 ++ "\",method=\"" ++
        e.1.2 ++ "\"\x7d " ++ toString e.2.count ++ ".0",
      "app_request_latency_seconds_sum\x7bpath=\"" ++ e.1.1 ++ "\",method=\"" ++
        e.1.2 ++ "\"\x7d " ++ toString e.2.sum]

/-- `prometheus_client.generate_latest()`: the deterministic text
snapshot of the registry - `HELP`/`TYPE` headers followed by the sample
lines of every child, in registration and creation order. -/
def generate_latest (r : Registry) : String :=
  concatLines
    (["# HELP app_requests_total Total HTTP requests",
      "# TYPE app_requests_total counter"]
     ++ r.requests.map counterSampleLine
     ++ ["# HELP app_request_latency_seconds Request latency in seconds",
         "# TYPE app_request_latency_seconds histogram"]
     ++ (r.latency.map histChildLines).flatten)

/-- `metrics` (`app.py` lines 123-125): returns the exposition body
with the exposition content type and runs no instrumentation. -/
def metrics (r : Registry) : RunResult :=
  { outcome := .ok (generate_latest r, 200), registry := r, logs := [],
    spans := [], steps := [],
    headers := [("Content-Type", CONTENT_TYPE_LATEST)] }

/-- One completed inbound request, with the elapsed-time values its
handler reads from the wall clock (`d1` at the `observe` call, `d2` at
the `duration_ms` computation). -/
inductive Event where
  | indexReq (ua : Option String) (ip : String) (d1 d2 : ℚ)
  | helloReq (name ip : String) (d1 d2 : ℚ)
  | healthReq
  | metricsReq
deriving DecidableEq

/-- Dispatch one request to its route handler. -/
def handle : Event → Registry → RunResult
  | .indexReq ua ip d1 d2, r => index ua ip d1 d2 r
  | .helloReq name ip d1 d2, r => hello name ip d1 d2 r
  | .healthReq, r => health r
  | .metricsReq, r => metrics r

/-- The elapsed time a request's handler observes into the histogram
(0 for the uninstrumented routes, which observe nothing). -/
def obsDur : Event → ℚ
  | .indexReq _ _ d1 _ => d1
  | .helloReq _ _ d1 _ => d1
  | .healthReq => 0
  | .metricsReq => 0

/-- The `(path, method)` pair a request is instrumented under (`none`
for the uninstrumented routes). -/
def eventPM : Event → Option (String × String)
  | .indexReq _ _ _ _ => some ("/", "GET")
  | .helloReq _ _ _ _ => some ("/hello", "GET")
  | .healthReq => none
  | .metricsReq => none

/-- The registry after a sequence of completed requests, starting from
a given registry state. -/
def runAllFrom (evs : List Event) (r : Registry) : Registry :=
  evs.foldl (fun s e => (handle e s).registry) r

/-- The registry after a sequence of completed requests, starting from
process start. -/
def runAll (evs : List Event) : Registry :=
  runAllFrom evs emptyRegistry

/-! ### Helper lemmas about the embedding -/

theorem strData_append (a b : String) : (a ++ b).data = a.data ++ b.data := rfl

theorem sepJoin_cons₂ (sep x y : String) (xs : List String) :
    sepJoin sep (x :: y :: xs) = x ++ sep ++ sepJoin sep (y :: xs) := rfl

theorem foldl_snoc {α β : Type} (g : α → β) (fields : List α) (acc : List β) :
    fields.foldl (fun parts kv => parts ++ [g kv]) acc = acc ++ fields.map g := by
  induction fields generalizing acc with
  | nil => simp
  | cons kv rest ih => simp [List.foldl_cons, ih]

theorem logfmt_eq_map (fields : List (String × Val)) :
    logfmt fields
      = sepJoin " " (fields.map (fun kv => kv.1 ++ "=" ++ replaceSpaces (pyStr kv.2))) := by
  simp [logfmt, foldl_snoc]

theorem sepJoin_append (sep : String) (ys : List String) (hy : ys ≠ []) :
    ∀ xs : List String, xs ≠ [] →
      sepJoin sep (xs ++ ys) = sepJoin sep xs ++ sep ++ sepJoin sep ys := by
  intro xs
  induction xs with
  | nil => intro h; exact absurd rfl h
  | cons a xs ih =>
    intro _
    cases xs with
    | nil =>
      cases ys with
      | nil => exact absurd rfl hy
      | cons y ys' => rfl
    | cons b xs' =>
      have h2 := ih (by simp)
      simp only [List.cons_append] at h2 ⊢
      rw [sepJoin_cons₂, h2]
      simp [sepJoin_cons₂, String.append_assoc]

theorem mem_concatLines_infix {l : String} {L : List String} (h : l ∈ L) :
    l.data <:+: (concatLines L).data := by
  induction L with
  | nil => simp at h
  | cons a L ih =>
    rcases List.mem_cons.mp h with rfl | h'
    · refine ⟨[], ('\n' :: (concatLines L).data), ?_⟩
      simp [concatLines, strData_append, List.append_assoc]
    · refine (ih h').trans ⟨(a ++ "\n").data, [], ?_⟩
      simp [concatLines, strData_append]

theorem cval_bump_self (k : String × String × String)
    (l : List ((String × String × String) × Nat)) :
    cval k (bump k l) = cval k l + 1 := by
  induction l with
  | nil => simp [bump, cval]
  | cons e rest ih =>
    obtain ⟨k', v⟩ := e
    by_cases h : k' = k
    · subst h; simp [bump, cval]
    · simp [bump, cval, h, ih]

theorem ctot_bump (k : String × String × String) (p m : String)
    (l : List ((String × String × String) × Nat)) :
    ctot p m (bump k l) = ctot p m l + (if k.1 = p ∧ k.2.1 = m then 1 else 0) := by
  induction l with
  | nil => simp [bump, ctot]
  | cons e rest ih =>
    obtain ⟨k', v⟩ := e
    by_cases h : k' = k
    · cases h
      by_cases hc : k.1 = p ∧ k.2.1 = m <;> simp [bump, ctot, hc] <;> omega
    · simp only [bump, if_neg h, ctot, ih]
      omega

theorem hcount_obsH (k k' : String × String) (d : ℚ)
    (l : List ((String × String) × Hist)) :
    hcount k' (obsH k d l) = hcount k' l + (if k = k' then 1 else 0) := by
  induction l with
  | nil =>
    by_cases h : k = k' <;> simp [obsH, hcount, Hist.observe, Hist.empty, h]
  | cons e rest ih =>
    obtain ⟨k₀, h₀⟩ := e
    by_cases h : k₀ = k
    · subst h
      by_cases h' : k₀ = k' <;> simp [obsH, hcount, Hist.observe, h']
    · by_cases h' : k₀ = k'
      · subst h'
        simp [obsH, hcount, if_neg h, ih, show ¬ k = k₀ from fun hh => h hh.symm]
      · simp [obsH, hcount, h, h', ih]

theorem hsum_obsH (k k' : String × String) (d : ℚ)
    (l : List ((String × String) × Hist)) :
    hsum k' (obsH k d l) = hsum k' l + (if k = k' then d else 0) := by
  induction l with
  | nil =>
    by_cases h : k = k' <;> simp [obsH, hsum, Hist.observe, Hist.empty, h]
  | cons e rest ih =>
    obtain ⟨k₀, h₀⟩ := e
    by_cases h : k₀ = k
    · subst h
      by_cases h' : k₀ = k' <;> simp [obsH, hsum, Hist.observe, h', add_comm]
    · by_cases h' : k₀ = k'
      · subst h'
        simp [obsH, hsum, if_neg h, ih, show ¬ k = k₀ from fun hh => h hh.symm]
      · simp [obsH, hsum, h, h', ih]

theorem hcount_handle (e : Event) (r : Registry) (k : String × String) :
    hcount k (handle e r).registry.latency
      = hcount k r.latency + (if eventPM e = some k then 1 else 0) := by
  cases e <;>
    simp [handle, index, hello, health, metrics, runInstrumented, eventPM, hcount_obsH]

theorem hsum_handle (e : Event) (r : Registry) (k : String × String) :
    hsum k (handle e r).registry.latency
      = hsum k r.latency + (if eventPM e = some k then obsDur e else 0) := by
  cases e <;>
    simp [handle, index, hello, health, metrics, runInstrumented, eventPM, obsDur, hsum_obsH]

theorem ctot_handle (e : Event) (r : Registry) (p m : String) :
    ctot p m (handle e r).registry.requests
      = ctot p m r.requests + (if eventPM e = some (p, m) then 1 else 0) := by
  cases e <;>
    simp [handle, index, hello, health, metrics, runInstrumented, eventPM, ctot_bump,
      Prod.ext_iff]

theorem runAllFrom_cons (e : Event) (evs : List Event) (r : Registry) :
    runAllFrom (e :: evs) r = runAllFrom evs (handle e r).registry := rfl

theorem count_invariant_from (evs : List Event) :
    ∀ r : Registry, (∀ p m, hcount (p, m) r.latency = ctot p m r.requests) →
      ∀ p m, hcount (p, m) (runAllFrom evs r).latency = ctot p m (runAllFrom evs r).requests := by
  induction evs with
  | nil => intro r h; exact h
  | cons e evs ih =>
    intro r h
    refine ih _ (fun p m => ?_)
    rw [hcount_handle, ctot_handle, h p m]

theorem hsum_mono_from (evs : List Event) :
    ∀ r : Registry, (∀ e ∈ evs, 0 ≤ obsDur e) → ∀ k,
      hsum k r.latency ≤ hsum k (runAllFrom evs r).latency := by
  induction evs with
  | nil => intro r _ k; exact le_refl _
  | cons e evs ih =>
    intro r h k
    have h1 : hsum k r.latency ≤ hsum k (handle e r).registry.latency := by
      rw [hsum_handle]
      have hd := h e (List.mem_cons_self e evs)
      split
      · exact le_add_of_nonneg_right hd
      · simp
    exact h1.trans (ih _ (fun e' he' => h e' (List.mem_cons_of_mem _ he')) k)

/-! ### The claims -/

/-- C7: a request `GET /healthz` returns body `"ok\n"` with status 200,
leaves every metric (all counters and histograms) unchanged, and emits
no request log line - the path is uninstrumented. -/
theorem healthz_uninstrumented (r : Registry) :
    (handle .healthReq r).outcome = .ok ("ok\n", 200)
    ∧ (handle .healthReq r).registry = r
    ∧ (handle .healthReq r).logs = [] :=
  ⟨rfl, rfl, rfl⟩

/-- C10: a request `GET /metrics` is itself uninstrumented: the
registry is returned unchanged (no counter increment, no histogram
observation), no log line is emitted and no instrumentation stage runs,
so serving the export endpoint never changes the metrics it reports. -/
theorem metrics_route_uninstrumented (r : Registry) :
    (handle .metricsReq r).registry = r
    ∧ (handle .metricsReq r).logs = []
    ∧ (handle .metricsReq r).steps = [] :=
  ⟨rfl, rfl, rfl⟩

/-- C6: calling the metrics export twice with no intervening counter
increments or histogram observations yields two identical output
strings - the first export leaves the registry unchanged, and the
second export of that same registry renders the same snapshot. -/
theorem export_deterministic (r : Registry) :
    (handle .metricsReq ((handle .metricsReq r).registry)).outcome
      = (handle .metricsReq r).outcome := rfl

/-- C2: a request `GET /hello/world` returns body `"Hello world!\n"`
with status 200, increments the `app_requests_total` child with label
values `path="/hello"`, `method="GET"`, `status="200"` by exactly 1,
and emits exactly one log line containing the substring
`event=request path=/hello method=GET status=200 name=world`. -/
theorem hello_world_scenario (ip : String) (d1 d2 : ℚ) (r : Registry) :
    (hello "world" ip d1 d2 r).outcome = .ok ("Hello world!\n", 200)
    ∧ cval ("/hello", "GET", "200") (hello "world" ip d1 d2 r).registry.requests
        = cval ("/hello", "GET", "200") r.requests + 1
    ∧ ∃ l, (hello "world" ip d1 d2 r).logs = [l]
        ∧ "event=request path=/hello method=GET status=200 name=world".data <:+: l.data := by
  refine ⟨rfl, cval_bump_self _ _, ⟨_, rfl, ?_⟩⟩
  exact List.IsPrefix.isInfix
    ⟨(" duration_ms=" ++ replaceSpaces (pyStr (Val.vq (round (d2 * 10000)))) ++ " " ++
        ("client_ip" ++ "=" ++ replaceSpaces ip)).data, rfl⟩

/-- C9: for every request `GET /`, the log line ends with a
`user_agent` field whose value is the request's `User-Agent` header
truncated to at most 100 characters (the empty string when the header
is absent), with spaces replaced by underscores; the truncation is
silent. -/
theorem index_user_agent_field (ua : Option String) (ip : String) (d1 d2 : ℚ) (r : Registry) :
    ∃ l, (index ua ip d1 d2 r).logs = [l]
      ∧ ("user_agent=" ++ replaceSpaces (strTake 100 (ua.getD ""))).data <:+ l.data
      ∧ (replaceSpaces (strTake 100 (ua.getD ""))).length ≤ 100
      ∧ replaceSpaces (strTake 100 (Option.getD (none : Option String) "")) = "" := by
  refine ⟨_, rfl, ?_, ?_, rfl⟩
  · show ("user_agent=" ++ replaceSpaces (strTake 100 (ua.getD ""))).data
      <:+ (logfmt (indexFields 200 d2 ip ua)).data
    rw [logfmt_eq_map,
      show indexFields 200 d2 ip ua
          = [("event", .vs "request"), ("path", .vs "/"), ("method", .vs "GET"),
             ("status", .vn 200), ("duration_ms", .vq (round (d2 * 10000))),
             ("client_ip", .vs ip)]
            ++ [("user_agent", Val.vs (strTake 100 (ua.getD "")))] from rfl,
      List.map_append, sepJoin_append " " _ (by simp) _ (by simp)]
    exact List.suffix_append _ _
  · show (((ua.getD "").data.take 100).map (fun c => if c = ' ' then '_' else c)).length ≤ 100
    rw [List.length_map, List.length_take]
    omega

/-- C1 (counterexample): on the `/` instrumentation pattern with a
failing handler body, the invocation propagates the exception instead
of returning a 500 response: no counter child is ever created, and no
log line is emitted, contrary to the claim's caught-at-the-boundary
behaviour. -/
theorem handler_failure_claim_cex :
    (runInstrumented "/" "index-handler" [] (.error "boom")
        (fun st => indexFields st 0 "127.0.0.1" none) 0 emptyRegistry).outcome
      = .error "boom"
    ∧ (runInstrumented "/" "index-handler" [] (.error "boom")
        (fun st => indexFields st 0 "127.0.0.1" none) 0 emptyRegistry).registry.requests = []
    ∧ (runInstrumented "/" "index-handler" [] (.error "boom")
        (fun st => indexFields st 0 "127.0.0.1" none) 0 emptyRegistry).logs = [] :=
  ⟨rfl, rfl, rfl⟩

/-- C1 (amended): when the wrapped handler body fails with an
exception, the `with` block still closes the span exactly once with
error status, but the exception propagates past the handler: the
registry is unchanged (no counter increment, no histogram observation)
and no log line is emitted. -/
theorem handler_failure_propagates (path spanName : String)
    (attrs : List (String × String)) (e : String)
    (fields : Nat → List (String × Val)) (d1 : ℚ) (r : Registry) :
    (runInstrumented path spanName attrs (.error e) fields d1 r).outcome = .error e
    ∧ (runInstrumented path spanName attrs (.error e) fields d1 r).registry = r
    ∧ (runInstrumented path spanName attrs (.error e) fields d1 r).logs = []
    ∧ (runInstrumented path spanName attrs (.error e) fields d1 r).spans
        = [⟨spanName, attrs, true⟩] :=
  ⟨rfl, rfl, rfl, rfl⟩

/-- C5 (counterexample): an invocation whose handler body fails stops
after `SPAN_CLOSED` - the `METRICS_RECORDED`, `LOGGED` and `DONE`
stages are skipped, contrary to the claim that no step of the sequence
is ever skipped. -/
theorem step_order_claim_cex :
    (runInstrumented "/" "index-handler" [] (.error "boom")
        (fun st => indexFields st 0 "127.0.0.1" none) 0 emptyRegistry).steps
      = [.STARTED, .SPAN_OPEN, .HANDLER_RUNNING, .SPAN_CLOSED]
    ∧ [Step.STARTED, .SPAN_OPEN, .HANDLER_RUNNING, .SPAN_CLOSED] ≠ fullSteps :=
  ⟨rfl, by decide⟩

/-- C5 (amended): every invocation of `index` or `hello` (whose bodies
always succeed) runs the stages in exactly the fixed order `STARTED →
SPAN_OPEN → HANDLER_RUNNING → SPAN_CLOSED → METRICS_RECORDED → LOGGED
→ DONE`, with the span closed before the metrics and the metrics
recorded before the log line; an invocation whose body fails instead
stops after `SPAN_CLOSED`. -/
theorem instrumentation_step_order :
    (∀ (ua : Option String) (ip : String) (d1 d2 : ℚ) (r : Registry),
      (index ua ip d1 d2 r).steps = fullSteps)
    ∧ (∀ (name ip : String) (d1 d2 : ℚ) (r : Registry),
      (hello name ip d1 d2 r).steps = fullSteps)
    ∧ (∀ (path spanName : String) (attrs : List (String × String)) (e : String)
        (fields : Nat → List (String × Val)) (d1 : ℚ) (r : Registry),
      (runInstrumented path spanName attrs (.error e) fields d1 r).steps
        = [.STARTED, .SPAN_OPEN, .HANDLER_RUNNING, .SPAN_CLOSED]) :=
  ⟨fun _ _ _ _ _ => rfl, fun _ _ _ _ _ => rfl, fun _ _ _ _ _ _ _ => rfl⟩

/-- C4 (counterexample): a value containing a tab keeps its tab in the
`logfmt` line, while the claimed whitespace-wide replacement would turn
it into an underscore. -/
theorem logfmt_whitespace_cex :
    logfmt [("k", Val.vs "a\tb")] = "k=a\tb"
    ∧ logfmtSpecWhitespace [("k", Val.vs "a\tb")] = "k=a_b"
    ∧ ("k=a\tb" : String) ≠ "k=a_b" :=
  ⟨by decide, by decide, by decide⟩

/-- C4 (amended): `logfmt` serializes the ordered fields to
`key1=value1 key2=value2 ...` joined by single spaces, preserving the
caller's ordering; in each serialized value only the space character
(U+0020) is replaced with an underscore - the result contains no
spaces, and every non-space character of the value, embedded `=` and
tabs included, is kept as-is with no other escaping. -/
theorem logfmt_serialization (fields : List (String × Val)) :
    logfmt fields
      = sepJoin " " (fields.map (fun kv => kv.1 ++ "=" ++ replaceSpaces (pyStr kv.2)))
    ∧ (∀ s : String, ∀ c ∈ (replaceSpaces s).data, c ≠ ' ')
    ∧ (∀ s : String, ∀ c ∈ s.data, c ≠ ' ' → c ∈ (replaceSpaces s).data) := by
  refine ⟨logfmt_eq_map fields, ?_, ?_⟩
  · intro s c hc
    rcases List.mem_map.mp hc with ⟨a, _, rfl⟩
    by_cases ha : a = ' ' <;> simp [ha]
  · intro s c hc hne
    exact List.mem_map.mpr ⟨c, hc, by simp [hne]⟩

/-- C4 (witness): on the value `"a b=c"` the space becomes an
underscore and the embedded `=` survives unescaped. -/
theorem logfmt_serialization_witness :
    ('_' ∈ (replaceSpaces "a b=c").data ∧ ('_' : Char) ≠ ' ')
    ∧ ('=' ∈ ("a b=c" : String).data ∧ ('=' : Char) ≠ ' '
        ∧ '=' ∈ (replaceSpaces "a b=c").data) :=
  ⟨⟨by decide, (logfmt_serialization []).2.1 "a b=c" '_' (by decide)⟩,
   ⟨by decide, by decide, (logfmt_serialization []).2.2 "a b=c" '=' (by decide) (by decide)⟩⟩

/-- C3: after any sequence of completed requests, the latency
histogram's total count for a `(path, method)` pair equals the sum of
`app_requests_total` over all statuses for that pair, the histogram sum
is non-negative, and the sum is non-decreasing as further completed
requests accrue. -/
theorem metrics_count_sum_invariant (evs : List Event)
    (h : ∀ e ∈ evs, 0 ≤ obsDur e) (p m : String) :
    hcount (p, m) (runAll evs).latency = ctot p m (runAll evs).requests
    ∧ 0 ≤ hsum (p, m) (runAll evs).latency
    ∧ ∀ evs2 : List Event, (∀ e ∈ evs2, 0 ≤ obsDur e) →
        hsum (p, m) (runAll evs).latency ≤ hsum (p, m) (runAll (evs ++ evs2)).latency := by
  refine ⟨count_invariant_from evs emptyRegistry (fun _ _ => rfl) p m, ?_, ?_⟩
  · exact hsum_mono_from evs emptyRegistry h (p, m)
  · intro evs2 h2
    have hsplit : runAll (evs ++ evs2) = runAllFrom evs2 (runAll evs) := by
      simp [runAll, runAllFrom, List.foldl_append]
    rw [hsplit]
    exact hsum_mono_from evs2 (runAll evs) h2 (p, m)

/-- C3 (witness): one completed `GET /hello/world` request with elapsed
time 1, followed by one completed `GET /` request with elapsed time 1. -/
theorem metrics_count_sum_invariant_witness :
    (∀ e ∈ [Event.helloReq "world" "127.0.0.1" 1 1], 0 ≤ obsDur e)
    ∧ hcount ("/hello", "GET") (runAll [Event.helloReq "world" "127.0.0.1" 1 1]).latency
        = ctot "/hello" "GET" (runAll [Event.helloReq "world" "127.0.0.1" 1 1]).requests
    ∧ 0 ≤ hsum ("/hello", "GET") (runAll [Event.helloReq "world" "127.0.0.1" 1 1]).latency
    ∧ hsum ("/hello", "GET") (runAll [Event.helloReq "world" "127.0.0.1" 1 1]).latency
        ≤ hsum ("/hello", "GET")
            (runAll ([Event.helloReq "world" "127.0.0.1" 1 1]
              ++ [Event.indexReq none "127.0.0.1" 1 1])).latency := by
  have hh : ∀ e ∈ [Event.helloReq "world" "127.0.0.1" 1 1], 0 ≤ obsDur e := by
    intro e he
    rw [List.mem_singleton] at he
    subst he
    simp [obsDur]
  have hh2 : ∀ e ∈ [Event.indexReq none "127.0.0.1" 1 1], 0 ≤ obsDur e := by
    intro e he
    rw [List.mem_singleton] at he
    subst he
    simp [obsDur]
  exact ⟨hh, (metrics_count_sum_invariant _ hh "/hello" "GET").1,
    (metrics_count_sum_invariant _ hh "/hello" "GET").2.1,
    (metrics_count_sum_invariant _ hh "/hello" "GET").2.2 _ hh2⟩

/-- C8: a request `GET /metrics` carries the metrics-exposition content
type and its body contains the sample line, with its current value, of
every previously incremented `app_requests_total` label combination. -/
theorem metrics_endpoint_content (r : Registry)
    (e : (String × String × String) × Nat) (he : e ∈ r.requests) :
    ("Content-Type", CONTENT_TYPE_LATEST) ∈ (handle .metricsReq r).headers
    ∧ (handle .metricsReq r).outcome = .ok (generate_latest r, 200)
    ∧ (counterSampleLine e).data <:+: (generate_latest r).data := by
  refine ⟨List.mem_singleton.mpr rfl, rfl, ?_⟩
  apply mem_concatLines_infix
  simp only [generate_latest, List.mem_append]
  exact Or.inl (Or.inl (Or.inr (List.mem_map_of_mem counterSampleLine he)))

/-- C8 (witness): a registry holding one previously incremented
counter child for `GET /` with status 200. -/
theorem metrics_endpoint_content_witness :
    ((("/", "GET", "200"), 1) ∈ (Registry.mk [(("/", "GET", "200"), 1)] []).requests)
    ∧ ("Content-Type", CONTENT_TYPE_LATEST)
        ∈ (handle .metricsReq (Registry.mk [(("/", "GET", "200"), 1)] [])).headers
    ∧ (handle .metricsReq (Registry.mk [(("/", "GET", "200"), 1)] [])).outcome
        = .ok (generate_latest (Registry.mk [(("/", "GET", "200"), 1)] []), 200)
    ∧ (counterSampleLine (("/", "GET", "200"), 1)).data
        <:+: (generate_latest (Registry.mk [(("/", "GET", "200"), 1)] [])).data := by
  refine ⟨by decide, ?_, ?_, ?_⟩
  · exact (metrics_endpoint_content (Registry.mk [(("/", "GET", "200"), 1)] [])
      (("/", "GET", "200"), 1) (by decide)).1
  · exact (metrics_endpoint_content (Registry.mk [(("/", "GET", "200"), 1)] [])
      (("/", "GET", "200"), 1) (by decide)).2.1
  · exact (metrics_endpoint_content (Registry.mk [(("/", "GET", "200"), 1)] [])
      (("/", "GET", "200"), 1) (by decide)).2.2

end ObsApp
